import Mathlib

/-!
Shallow embedding of the gtest test framework (testframework.hpp /
g_test_framework.cpp, std-only variant in the gtest namespace).

Machine `int` is modelled as `Int`; `std::string` as `String`;
`std::vector` as `List`; `std::ostream` insertion of a value is modelled
by an explicit render function `α → String`. A test body is modelled as a
list of steps: assertion calls (`GCHECK`) and raised exceptions, the
latter tagged with whether the raised type belongs to the family caught
by `TestBase::execute`.
-/

namespace GTest

/-- Embeds struct FailedCheck: check number, check name, failure message. -/
structure FailedCheck where
  checkNumber : Int
  checkName : String
  failMessage : String
deriving DecidableEq, Repr

/-- Embeds struct ExceptionInfo: the what()-message and the type name of a
caught exception. -/
structure ExceptionInfo where
  message : String
  type : String
deriving DecidableEq, Repr

/-- Embeds struct TestResult: test name, executed-check counter, the list of
failed checks and the list of captured exceptions, in insertion order. -/
structure TestResult where
  testName : String
  numberExecutedChecks : Int := 0
  failedChecks : List FailedCheck := []
  exceptions : List ExceptionInfo := []
deriving DecidableEq, Repr

/-- Embeds the freshly constructed TestResult of a TestBase: counter 0 and
both lists empty (TestBase's constructor only sets testName). -/
def initResult (name : String) : TestResult :=
  { testName := name }

/-- Embeds the three-argument TestBase::GCHECK template: increment
numberExecutedChecks, and on inequality append one FailedCheck whose number
is the post-increment counter value and whose message streams both values
("Result: ... | Expected: ..."). `render` embeds `operator<<` on `Type`. -/
def GCHECK {α : Type} [DecidableEq α] (render : α → String) (name : String)
    (result expected : α) (tr : TestResult) : TestResult :=
  let tr1 : TestResult := { tr with numberExecutedChecks := tr.numberExecutedChecks + 1 }
  if result ≠ expected then
    { tr1 with failedChecks := tr1.failedChecks ++
        [FailedCheck.mk tr1.numberExecutedChecks name
          ("Result: " ++ render result ++ " | Expected: " ++ render expected)] }
  else
    tr1

/-- Embeds the two-argument TestBase::GCHECK overload, which delegates to the
three-argument one with an empty name string. -/
def GCHECK2 {α : Type} [DecidableEq α] (render : α → String)
    (result expected : α) (tr : TestResult) : TestResult :=
  GCHECK render "" result expected tr

/-- Embeds `std::ostream << b` for a bool under the `std::boolalpha` flag
(set by GCHECK's message stream): the words "true"/"false". -/
def ostreamBoolalpha (b : Bool) : String :=
  if b then "true" else "false"

/-- Embeds `std::ostream << i` for an int: decimal digits. -/
def ostreamInt (i : Int) : String :=
  toString i

/-- One step of a test body: an assertion call (two-argument form when the
name is `none`, three-argument form when it is `some`), or a raised
exception. `domain` tags whether the raised type belongs to the exception
family caught by TestBase::execute (`std::exception` in the std variant). -/
inductive BodyStep (α : Type) where
  | gcheck (name : Option String) (result expected : α)
  | raise (domain : Bool) (message : String) (type : String)
deriving DecidableEq, Repr

/-- How a test body terminated: normally, or by raising. -/
inductive BodyOutcome where
  | normal
  | raised (domain : Bool) (message : String) (type : String)
deriving DecidableEq, Repr

/-- Runs a test body over the case's TestResult: each gcheck step mutates the
result via GCHECK/GCHECK2; a raise step ends the body at once, abandoning
every later step (C++ exception propagation out of testBody). -/
def runBody {α : Type} [DecidableEq α] (render : α → String) :
    List (BodyStep α) → TestResult → TestResult × BodyOutcome
  | [], tr => (tr, BodyOutcome.normal)
  | BodyStep.gcheck none x y :: rest, tr => runBody render rest (GCHECK2 render x y tr)
  | BodyStep.gcheck (some n) x y :: rest, tr => runBody render rest (GCHECK render n x y tr)
  | BodyStep.raise d m t :: _, tr => (tr, BodyOutcome.raised d m t)

/-- True on assertion steps, false on raise steps. -/
def isCheckStep {α : Type} : BodyStep α → Bool
  | BodyStep.gcheck _ _ _ => true
  | BodyStep.raise _ _ _ => false

/-- The outcome a body terminates with: its first raise step, if any. -/
def outcomeOf {α : Type} : List (BodyStep α) → BodyOutcome
  | [] => BodyOutcome.normal
  | BodyStep.gcheck _ _ _ :: rest => outcomeOf rest
  | BodyStep.raise d m t :: _ => BodyOutcome.raised d m t

/-- Embeds TestBase::execute: run testBody; an exception of the recognized
family is converted to an ExceptionInfo and appended to the result, and
execute returns normally; any other exception propagates out (modelled as
`Except.error`, carrying the escaping exception and the case's result as it
stood, which execute leaves untouched). -/
def execute {α : Type} [DecidableEq α] (render : α → String) (steps : List (BodyStep α))
    (tr : TestResult) : Except (ExceptionInfo × TestResult) TestResult :=
  match runBody render steps tr with
  | (tr1, BodyOutcome.normal) => Except.ok tr1
  | (tr1, BodyOutcome.raised true m t) =>
      Except.ok { tr1 with exceptions := tr1.exceptions ++ [ExceptionInfo.mk m t] }
  | (tr1, BodyOutcome.raised false m t) => Except.error (ExceptionInfo.mk m t, tr1)

/-- Embeds the status computation of printTestResultTableRow: EXCEPTION if
any exception was captured, else FAILED if any check failed, else PASSED if
any check ran, else NOT PERFORMED. -/
def printTestResultTableRowStatus (result : TestResult) : String :=
  if !result.exceptions.isEmpty then "EXCEPTION"
  else if !result.failedChecks.isEmpty then "FAILED"
  else if result.numberExecutedChecks > 0 then "PASSED"
  else "NOT PERFORMED"

/-- Embeds the filter of TestFramework::getPassedTests: no failed checks and
at least one executed check. -/
def passedTestFilter (t : TestResult) : Bool :=
  t.failedChecks.isEmpty && decide (t.numberExecutedChecks > 0)

/-- Embeds the filter of TestFramework::getFailedTests: at least one failed
check. -/
def failedTestFilter (t : TestResult) : Bool :=
  t.failedChecks.length > 0

/-- Embeds the filter of TestFramework::getTestsWithExceptions: at least one
captured exception. -/
def exceptionFilter (t : TestResult) : Bool :=
  t.exceptions.length > 0

/-- Embeds TestFramework::getPassedTests over the registered cases'
results. -/
def getPassedTests (ts : List TestResult) : List TestResult :=
  ts.filter passedTestFilter

/-- Embeds TestFramework::getFailedTests over the registered cases'
results. -/
def getFailedTests (ts : List TestResult) : List TestResult :=
  ts.filter failedTestFilter

/-- Embeds TestFramework::getTestsWithExceptions over the registered cases'
results. -/
def getTestsWithExceptions (ts : List TestResult) : List TestResult :=
  ts.filter exceptionFilter

/-- Embeds TestFramework::numberOfFailedChecks: accumulate the sizes of the
failedChecks lists over the registered cases. -/
def numberOfFailedChecks (ts : List TestResult) : Int :=
  ts.foldl (fun sum t => sum + (t.failedChecks.length : Int)) 0

/-- Embeds TestFramework::numberOfExecutedChecks: accumulate
numberExecutedChecks over the registered cases. -/
def numberOfExecutedChecks (ts : List TestResult) : Int :=
  ts.foldl (fun sum t => sum + t.numberExecutedChecks) 0

/-- Embeds the overall result string of printTestSummary: "SUCCESS!" when
numberOfFailedChecks() == 0, "FAILED" otherwise. -/
def summaryResultString (ts : List TestResult) : String :=
  if numberOfFailedChecks ts = 0 then "SUCCESS!" else "FAILED"

/-- A registered test case: its name and its body. -/
structure TestCase (α : Type) where
  name : String
  body : List (BodyStep α)

/-- The TestResult execute leaves in a case when it returns normally: the
body's mutations, plus one appended ExceptionInfo when the body raised (a
recognized) exception. -/
def caseResult {α : Type} [DecidableEq α] (render : α → String) (c : TestCase α) : TestResult :=
  match runBody render c.body (initResult c.name) with
  | (tr, BodyOutcome.normal) => tr
  | (tr, BodyOutcome.raised _ m t) =>
      { tr with exceptions := tr.exceptions ++ [ExceptionInfo.mk m t] }

/-- Embeds the loop of TestFramework::executeTests, carrying
numberOfExecutedTests_: each case is executed, the counter incremented, and
the row (counter, result) emitted before the next case runs. A propagating
exception aborts the loop (modelled as `Except.error`, carrying the
exception and the rows already emitted). -/
def executeTestsLoop {α : Type} [DecidableEq α] (render : α → String) (counter : Int) :
    List (TestCase α) → Except (ExceptionInfo × List (Int × TestResult)) (List (Int × TestResult))
  | [] => Except.ok []
  | c :: rest =>
    match execute render c.body (initResult c.name) with
    | Except.error (e, _) => Except.error (e, [])
    | Except.ok tr =>
      match executeTestsLoop render (counter + 1) rest with
      | Except.ok rows => Except.ok ((counter + 1, tr) :: rows)
      | Except.error (e, rows) => Except.error (e, (counter + 1, tr) :: rows)

/-- Embeds TestFramework::executeTests: run every registered case in
registration order starting from numberOfExecutedTests_ = 0, emitting one
table row per case. -/
def executeTests {α : Type} [DecidableEq α] (render : α → String) (cases : List (TestCase α)) :
    Except (ExceptionInfo × List (Int × TestResult)) (List (Int × TestResult)) :=
  executeTestsLoop render 0 cases

/-- Embeds the driver shown in the repository README (run_tests.cpp): main
calls executeTests() on the singleton and then returns 0, unconditionally.
The pair holds the run's emitted output and main's return value. -/
def runTestsMain {α : Type} [DecidableEq α] (render : α → String) (cases : List (TestCase α)) :
    Except (ExceptionInfo × List (Int × TestResult)) (List (Int × TestResult)) × Int :=
  (executeTests render cases, 0)

/-- Number of gcheck steps a body runs: all of them up to its first raise. -/
def numChecksRun {α : Type} : List (BodyStep α) → Int
  | [] => 0
  | BodyStep.gcheck _ _ _ :: rest => numChecksRun rest + 1
  | BodyStep.raise _ _ _ :: _ => 0

/-- True exactly on the outcome that TestBase::execute does not catch: a
raise whose type is outside the recognized exception family. -/
def isFatal : BodyOutcome → Bool
  | BodyOutcome.raised false _ _ => true
  | _ => false

/-- The table rows executeTests emits when no case's body raises an
uncaught exception: one row per case, in registration order, numbered with
the successive values of the executed-test counter. -/
def rowsFrom {α : Type} [DecidableEq α] (render : α → String) (counter : Int) :
    List (TestCase α) → List (Int × TestResult)
  | [] => []
  | c :: rest => (counter + 1, caseResult render c) :: rowsFrom render (counter + 1) rest

theorem GCHECK_numberExecutedChecks {α : Type} [DecidableEq α] (render : α → String)
    (name : String) (x y : α) (tr : TestResult) :
    (GCHECK render name x y tr).numberExecutedChecks = tr.numberExecutedChecks + 1 := by
  unfold GCHECK
  split <;> rfl

theorem GCHECK_testName {α : Type} [DecidableEq α] (render : α → String)
    (name : String) (x y : α) (tr : TestResult) :
    (GCHECK render name x y tr).testName = tr.testName := by
  unfold GCHECK
  split <;> rfl

theorem GCHECK_exceptions {α : Type} [DecidableEq α] (render : α → String)
    (name : String) (x y : α) (tr : TestResult) :
    (GCHECK render name x y tr).exceptions = tr.exceptions := by
  unfold GCHECK
  split <;> rfl

theorem GCHECK_failedChecks_of_ne {α : Type} [DecidableEq α] (render : α → String)
    (name : String) (x y : α) (tr : TestResult) (h : x ≠ y) :
    (GCHECK render name x y tr).failedChecks = tr.failedChecks ++
      [FailedCheck.mk (tr.numberExecutedChecks + 1) name
        ("Result: " ++ render x ++ " | Expected: " ++ render y)] := by
  unfold GCHECK
  split
  · rfl
  · exact absurd h (by assumption)

theorem GCHECK_failedChecks_of_eq {α : Type} [DecidableEq α] (render : α → String)
    (name : String) (x y : α) (tr : TestResult) (h : x = y) :
    (GCHECK render name x y tr).failedChecks = tr.failedChecks := by
  unfold GCHECK
  split
  · exact absurd h (by assumption)
  · rfl

theorem runBody_numberExecutedChecks {α : Type} [DecidableEq α] (render : α → String)
    (steps : List (BodyStep α)) (tr : TestResult) :
    (runBody render steps tr).1.numberExecutedChecks =
      tr.numberExecutedChecks + numChecksRun steps := by
  induction steps generalizing tr with
  | nil => simp [runBody, numChecksRun]
  | cons s rest ih =>
    cases s with
    | gcheck n x y =>
      cases n with
      | none =>
        rw [runBody, ih, numChecksRun, GCHECK2, GCHECK_numberExecutedChecks]
        omega
      | some nm =>
        rw [runBody, ih, numChecksRun, GCHECK_numberExecutedChecks]
        omega
    | raise d m t => simp [runBody, numChecksRun]

theorem runBody_exceptions {α : Type} [DecidableEq α] (render : α → String)
    (steps : List (BodyStep α)) (tr : TestResult) :
    (runBody render steps tr).1.exceptions = tr.exceptions := by
  induction steps generalizing tr with
  | nil => rfl
  | cons s rest ih =>
    cases s with
    | gcheck n x y =>
      cases n with
      | none => rw [runBody, ih, GCHECK2, GCHECK_exceptions]
      | some nm => rw [runBody, ih, GCHECK_exceptions]
    | raise d m t => rfl

theorem runBody_testName {α : Type} [DecidableEq α] (render : α → String)
    (steps : List (BodyStep α)) (tr : TestResult) :
    (runBody render steps tr).1.testName = tr.testName := by
  induction steps generalizing tr with
  | nil => rfl
  | cons s rest ih =>
    cases s with
    | gcheck n x y =>
      cases n with
      | none => rw [runBody, ih, GCHECK2, GCHECK_testName]
      | some nm => rw [runBody, ih, GCHECK_testName]
    | raise d m t => rfl

theorem runBody_outcome {α : Type} [DecidableEq α] (render : α → String)
    (steps : List (BodyStep α)) (tr : TestResult) :
    (runBody render steps tr).2 = outcomeOf steps := by
  induction steps generalizing tr with
  | nil => rfl
  | cons s rest ih =>
    cases s with
    | gcheck n x y =>
      cases n with
      | none => rw [runBody, ih]; rfl
      | some nm => rw [runBody, ih]; rfl
    | raise d m t => rfl

theorem runBody_takeWhile {α : Type} [DecidableEq α] (render : α → String)
    (steps : List (BodyStep α)) (tr : TestResult) :
    (runBody render steps tr).1 = (runBody render (steps.takeWhile isCheckStep) tr).1 := by
  induction steps generalizing tr with
  | nil => rfl
  | cons s rest ih =>
    cases s with
    | gcheck n x y =>
      cases n with
      | none =>
        rw [runBody, ih]
        rfl
      | some nm =>
        rw [runBody, ih]
        rfl
    | raise d m t => rfl

theorem numChecksRun_of_all_checks {α : Type} (steps : List (BodyStep α))
    (h : ∀ s ∈ steps, isCheckStep s = true) :
    numChecksRun steps = (steps.length : Int) := by
  induction steps with
  | nil => rfl
  | cons s rest ih =>
    cases s with
    | gcheck n x y =>
      rw [numChecksRun, ih fun s hs => h s (List.mem_cons_of_mem _ hs)]
      simp
    | raise d m t =>
      have := h _ (List.mem_cons_self _ _)
      simp [isCheckStep] at this

theorem runBody_failedChecks_invariant {α : Type} [DecidableEq α] (render : α → String)
    (steps : List (BodyStep α)) (tr : TestResult)
    (hub : ∀ fc ∈ tr.failedChecks, fc.checkNumber ≤ tr.numberExecutedChecks)
    (hlb : ∀ fc ∈ tr.failedChecks, 1 ≤ fc.checkNumber)
    (hch : List.Chain' (· < ·) (tr.failedChecks.map FailedCheck.checkNumber))
    (hnn : 0 ≤ tr.numberExecutedChecks) :
    (∀ fc ∈ (runBody render steps tr).1.failedChecks,
        fc.checkNumber ≤ (runBody render steps tr).1.numberExecutedChecks)
    ∧ (∀ fc ∈ (runBody render steps tr).1.failedChecks, 1 ≤ fc.checkNumber)
    ∧ List.Chain' (· < ·) ((runBody render steps tr).1.failedChecks.map FailedCheck.checkNumber)
    ∧ 0 ≤ (runBody render steps tr).1.numberExecutedChecks := by
  induction steps generalizing tr with
  | nil => exact ⟨hub, hlb, hch, hnn⟩
  | cons s rest ih =>
    cases s with
    | raise d m t => exact ⟨hub, hlb, hch, hnn⟩
    | gcheck n x y =>
      have step : ∀ (name : String),
          (∀ fc ∈ (GCHECK render name x y tr).failedChecks,
              fc.checkNumber ≤ (GCHECK render name x y tr).numberExecutedChecks)
          ∧ (∀ fc ∈ (GCHECK render name x y tr).failedChecks, 1 ≤ fc.checkNumber)
          ∧ List.Chain' (· < ·)
              ((GCHECK render name x y tr).failedChecks.map FailedCheck.checkNumber)
          ∧ 0 ≤ (GCHECK render name x y tr).numberExecutedChecks := by
        intro name
        by_cases hxy : x = y
        · rw [GCHECK_numberExecutedChecks, GCHECK_failedChecks_of_eq render name x y tr hxy]
          exact ⟨fun fc hfc => le_trans (hub fc hfc) (by omega), hlb, hch, by omega⟩
        · rw [GCHECK_numberExecutedChecks, GCHECK_failedChecks_of_ne render name x y tr hxy]
          refine ⟨?_, ?_, ?_, by omega⟩
          · intro fc hfc
            rcases List.mem_append.mp hfc with hfc | hfc
            · exact le_trans (hub fc hfc) (by omega)
            · simp only [List.mem_singleton] at hfc
              subst hfc
              exact le_refl _
          · intro fc hfc
            rcases List.mem_append.mp hfc with hfc | hfc
            · exact hlb fc hfc
            · simp only [List.mem_singleton] at hfc
              subst hfc
              show 1 ≤ tr.numberExecutedChecks + 1
              omega
          · rw [List.map_append]
            refine List.chain'_append.mpr ⟨hch, List.chain'_singleton _, ?_⟩
            intro a ha b hb
            simp at hb
            have ha' : a ∈ tr.failedChecks.map FailedCheck.checkNumber :=
              List.mem_of_mem_getLast? ha
            rcases List.mem_map.mp ha' with ⟨fc, hfc, rfl⟩
            have := hub fc hfc
            omega
      cases n with
      | none =>
        rw [runBody]
        have h2 := step ""
        exact ih (GCHECK2 render x y tr) h2.1 h2.2.1 h2.2.2.1 h2.2.2.2
      | some nm =>
        rw [runBody]
        have h2 := step nm
        exact ih (GCHECK render nm x y tr) h2.1 h2.2.1 h2.2.2.1 h2.2.2.2

theorem foldl_failedChecks_shift (ts : List TestResult) (init : Int) :
    ts.foldl (fun s t => s + (t.failedChecks.length : Int)) init =
      init + numberOfFailedChecks ts := by
  induction ts generalizing init with
  | nil => simp [numberOfFailedChecks]
  | cons t rest ih =>
    rw [numberOfFailedChecks, List.foldl_cons, List.foldl_cons, ih, ih]
    omega

theorem numberOfFailedChecks_nonneg (ts : List TestResult) :
    0 ≤ numberOfFailedChecks ts := by
  induction ts with
  | nil => simp [numberOfFailedChecks]
  | cons t rest ih =>
    rw [numberOfFailedChecks, List.foldl_cons, foldl_failedChecks_shift]
    have : (0 : Int) ≤ (t.failedChecks.length : Int) := Int.natCast_nonneg _
    omega

theorem numberOfFailedChecks_of_all_empty (ts : List TestResult)
    (h : ∀ t ∈ ts, t.failedChecks = []) :
    numberOfFailedChecks ts = 0 := by
  induction ts with
  | nil => simp [numberOfFailedChecks]
  | cons t rest ih =>
    rw [numberOfFailedChecks, List.foldl_cons, foldl_failedChecks_shift,
      h t (List.mem_cons_self _ _)]
    rw [ih fun t ht => h t (List.mem_cons_of_mem _ ht)]
    simp

theorem execute_ok_of_not_fatal {α : Type} [DecidableEq α] (render : α → String)
    (c : TestCase α) (h : isFatal (outcomeOf c.body) = false) :
    execute render c.body (initResult c.name) = Except.ok (caseResult render c) := by
  have hout := runBody_outcome render c.body (initResult c.name)
  unfold execute caseResult
  rcases hrb : runBody render c.body (initResult c.name) with ⟨tr1, out⟩
  rw [hrb] at hout
  cases out with
  | normal => rfl
  | raised d m t =>
    cases d with
    | true => rfl
    | false =>
      rw [← hout] at h
      simp [isFatal] at h

theorem executeTestsLoop_ok {α : Type} [DecidableEq α] (render : α → String)
    (cases : List (TestCase α)) (counter : Int)
    (h : ∀ c ∈ cases, isFatal (outcomeOf c.body) = false) :
    executeTestsLoop render counter cases = Except.ok (rowsFrom render counter cases) := by
  induction cases generalizing counter with
  | nil => rfl
  | cons c rest ih =>
    rw [executeTestsLoop, execute_ok_of_not_fatal render c (h c (List.mem_cons_self _ _)),
      ih (counter + 1) fun c hc => h c (List.mem_cons_of_mem _ hc)]
    rfl

theorem executeTestsLoop_ok_mem {α : Type} [DecidableEq α] (render : α → String)
    (cases : List (TestCase α)) (counter : Int) (rows : List (Int × TestResult))
    (hok : executeTestsLoop render counter cases = Except.ok rows)
    (p : Int × TestResult) (hp : p ∈ rows) :
    ∃ c ∈ cases, execute render c.body (initResult c.name) = Except.ok p.2 := by
  induction cases generalizing counter rows with
  | nil =>
    rw [executeTestsLoop] at hok
    cases hok
    cases hp
  | cons c rest ih =>
    rw [executeTestsLoop] at hok
    rcases hex : execute render c.body (initResult c.name) with e | tr
    · rw [hex] at hok
      cases hok
    · rw [hex] at hok
      rcases hloop : executeTestsLoop render (counter + 1) rest with e | rows'
      · rw [hloop] at hok
        rcases e with ⟨e1, e2⟩
        cases hok
      · rw [hloop] at hok
        cases hok
        rcases List.mem_cons.mp hp with hp | hp
        · subst hp
          exact ⟨c, List.mem_cons_self _ _, hex⟩
        · rcases ih (counter + 1) rows' hloop hp with ⟨c', hc', he'⟩
          exact ⟨c', List.mem_cons_of_mem _ hc', he'⟩

theorem execute_ok_zero_checks {α : Type} [DecidableEq α] (render : α → String)
    (steps : List (BodyStep α)) (name : String) (tr : TestResult)
    (hok : execute render steps (initResult name) = Except.ok tr)
    (hz : tr.numberExecutedChecks = 0) :
    tr.failedChecks = [] := by
  have hinv := runBody_failedChecks_invariant render steps (initResult name)
    (by simp [initResult]) (by simp [initResult]) (by simp [initResult]) (by simp [initResult])
  unfold execute at hok
  rcases hrb : runBody render steps (initResult name) with ⟨tr1, out⟩
  rw [hrb] at hok hinv
  cases out with
  | normal =>
    cases hok
    rcases hfc : tr.failedChecks with _ | ⟨fc, fcs⟩
    · rfl
    · have h1 := hinv.1 fc (by rw [hfc]; exact List.mem_cons_self _ _)
      have h2 := hinv.2.1 fc (by rw [hfc]; exact List.mem_cons_self _ _)
      rw [hz] at h1
      omega
  | raised d m t =>
    cases d with
    | true =>
      cases hok
      rcases hfc : tr1.failedChecks with _ | ⟨fc, fcs⟩
      · rfl
      · have h1 := hinv.1 fc (by rw [hfc]; exact List.mem_cons_self _ _)
        have h2 := hinv.2.1 fc (by rw [hfc]; exact List.mem_cons_self _ _)
        simp at hz
        rw [hz] at h1
        omega
    | false => cases hok

theorem rowsFrom_map_fst {α : Type} [DecidableEq α] (render : α → String)
    (cases : List (TestCase α)) (counter : Int) :
    (rowsFrom render counter cases).map Prod.fst =
      (List.range cases.length).map (fun i : Nat => counter + (i : Int) + 1) := by
  induction cases generalizing counter with
  | nil => simp [rowsFrom]
  | cons c rest ih =>
    rw [rowsFrom, List.map_cons, ih (counter + 1)]
    simp only [List.length_cons]
    rw [List.range_succ_eq_map, List.map_cons, List.map_map]
    have hfun : (fun i : Nat => counter + 1 + (i : Int) + 1) =
        ((fun i : Nat => counter + (i : Int) + 1) ∘ Nat.succ) := by
      funext i
      simp only [Function.comp_apply]
      push_cast
      ring
    rw [hfun]
    norm_num

theorem rowsFrom_map_snd {α : Type} [DecidableEq α] (render : α → String)
    (cases : List (TestCase α)) (counter : Int) :
    (rowsFrom render counter cases).map Prod.snd = cases.map (caseResult render) := by
  induction cases generalizing counter with
  | nil => rfl
  | cons c rest ih =>
    rw [rowsFrom, List.map_cons, List.map_cons, ih (counter + 1)]

/-- Claim C3: every call to GCHECK (either arity) increments the case's
numberExecutedChecks by exactly one, whether the comparison passes or fails,
and a fresh case that runs a sequence of N assertion calls ends with
numberExecutedChecks = N. -/
theorem checkCounter_increment_and_total {α : Type} [DecidableEq α] (render : α → String)
    (name caseName : String) (x y : α) (tr : TestResult) (steps : List (BodyStep α)) :
    (GCHECK render name x y tr).numberExecutedChecks = tr.numberExecutedChecks + 1
    ∧ (GCHECK2 render x y tr).numberExecutedChecks = tr.numberExecutedChecks + 1
    ∧ ((∀ s ∈ steps, isCheckStep s = true) →
        (runBody render steps (initResult caseName)).1.numberExecutedChecks =
          (steps.length : Int)) := by
  refine ⟨GCHECK_numberExecutedChecks render name x y tr,
    GCHECK_numberExecutedChecks render "" x y tr, fun h => ?_⟩
  rw [runBody_numberExecutedChecks, numChecksRun_of_all_checks steps h]
  simp [initResult]

theorem checkCounter_increment_and_total_witness :
    ((∀ s ∈ [BodyStep.gcheck none (1 : Int) 1, BodyStep.gcheck (some "n") (2 : Int) 3],
        isCheckStep s = true))
    ∧ (runBody ostreamInt
        [BodyStep.gcheck none (1 : Int) 1, BodyStep.gcheck (some "n") (2 : Int) 3]
        (initResult "T")).1.numberExecutedChecks =
          (([BodyStep.gcheck none (1 : Int) 1,
             BodyStep.gcheck (some "n") (2 : Int) 3] : List (BodyStep Int)).length : Int) :=
  ⟨by decide,
    (checkCounter_increment_and_total ostreamInt "n" "T" (1 : Int) 1 (initResult "T")
      [BodyStep.gcheck none (1 : Int) 1, BodyStep.gcheck (some "n") (2 : Int) 3]).2.2
      (by decide)⟩

/-- Claim C4: on inequality GCHECK appends exactly one FailedCheck whose
check number is the post-increment counter value, whose name is the supplied
name (empty for the two-argument form), and whose message streams both the
actual and the expected value; on equality failedChecks is untouched. -/
theorem gcheck_failed_record {α : Type} [DecidableEq α] (render : α → String)
    (name : String) (x y : α) (tr : TestResult) :
    (x ≠ y →
      (GCHECK render name x y tr).failedChecks = tr.failedChecks ++
        [FailedCheck.mk (GCHECK render name x y tr).numberExecutedChecks name
          ("Result: " ++ render x ++ " | Expected: " ++ render y)]
      ∧ (GCHECK2 render x y tr).failedChecks = tr.failedChecks ++
        [FailedCheck.mk (GCHECK2 render x y tr).numberExecutedChecks ""
          ("Result: " ++ render x ++ " | Expected: " ++ render y)])
    ∧ (x = y →
      (GCHECK render name x y tr).failedChecks = tr.failedChecks
      ∧ (GCHECK2 render x y tr).failedChecks = tr.failedChecks) := by
  constructor
  · intro h
    constructor
    · rw [GCHECK_numberExecutedChecks]
      exact GCHECK_failedChecks_of_ne render name x y tr h
    · rw [GCHECK2, GCHECK_numberExecutedChecks]
      exact GCHECK_failedChecks_of_ne render "" x y tr h
  · intro h
    exact ⟨GCHECK_failedChecks_of_eq render name x y tr h,
      GCHECK_failedChecks_of_eq render "" x y tr h⟩

theorem gcheck_failed_record_witness :
    ((2 : Int) ≠ 3)
    ∧ (GCHECK ostreamInt "add" (2 : Int) 3 (initResult "T")).failedChecks =
        (initResult "T").failedChecks ++
          [FailedCheck.mk (GCHECK ostreamInt "add" (2 : Int) 3 (initResult "T")).numberExecutedChecks
            "add" ("Result: " ++ ostreamInt 2 ++ " | Expected: " ++ ostreamInt 3)] :=
  ⟨by decide,
    ((gcheck_failed_record ostreamInt "add" (2 : Int) 3 (initResult "T")).1 (by decide)).1⟩

/-- Claim C10: the two-argument GCHECK overload produces exactly the state
change of the three-argument form called with the empty string as name. -/
theorem gcheck_two_arg_delegates {α : Type} [DecidableEq α] (render : α → String)
    (x y : α) (tr : TestResult) :
    GCHECK2 render x y tr = GCHECK render "" x y tr :=
  rfl

/-- Claim C9: when a check compares two unequal booleans, the failure message
renders both values as the words "true"/"false" (ostream insertion under the
boolalpha flag set by GCHECK), never as the numerals "1"/"0". -/
theorem bool_gcheck_renders_words (name : String) (a b : Bool) (tr : TestResult)
    (h : a ≠ b) :
    (GCHECK ostreamBoolalpha name a b tr).failedChecks = tr.failedChecks ++
      [FailedCheck.mk (tr.numberExecutedChecks + 1) name
        (if a then "Result: true | Expected: false" else "Result: false | Expected: true")] := by
  rw [GCHECK_failedChecks_of_ne ostreamBoolalpha name a b tr h]
  cases a <;> cases b <;> first | exact absurd rfl h | rfl

theorem bool_gcheck_renders_words_witness :
    (true ≠ false)
    ∧ (GCHECK ostreamBoolalpha "" true false (initResult "BoolCheck")).failedChecks =
        (initResult "BoolCheck").failedChecks ++
          [FailedCheck.mk ((initResult "BoolCheck").numberExecutedChecks + 1) ""
            (if true then "Result: true | Expected: false"
             else "Result: false | Expected: true")] :=
  ⟨by decide,
    bool_gcheck_renders_words "" true false (initResult "BoolCheck") (by decide)⟩

/-- Claim C2: execute runs the body under a scoped capture. A raise of the
recognized family ends the body (only the checks up to the raise are
recorded, the takeWhile conjunct), appends exactly one ExceptionInfo with
the raise's message and type (the body itself never touches exceptions, the
fourth conjunct), and execute returns normally; a raise outside the family
appends nothing and propagates out of execute. -/
theorem execute_exception_capture {α : Type} [DecidableEq α] (render : α → String)
    (steps : List (BodyStep α)) (tr : TestResult) :
    (∀ m t, outcomeOf steps = BodyOutcome.raised true m t →
        execute render steps tr = Except.ok
          { (runBody render steps tr).1 with
            exceptions := (runBody render steps tr).1.exceptions ++ [ExceptionInfo.mk m t] })
    ∧ (∀ m t, outcomeOf steps = BodyOutcome.raised false m t →
        execute render steps tr =
          Except.error (ExceptionInfo.mk m t, (runBody render steps tr).1))
    ∧ (outcomeOf steps = BodyOutcome.normal →
        execute render steps tr = Except.ok (runBody render steps tr).1)
    ∧ (runBody render steps tr).1.exceptions = tr.exceptions
    ∧ (runBody render steps tr).1 = (runBody render (steps.takeWhile isCheckStep) tr).1 := by
  refine ⟨?_, ?_, ?_, runBody_exceptions render steps tr, runBody_takeWhile render steps tr⟩
  · intro m t h
    have h2 : (runBody render steps tr).2 = BodyOutcome.raised true m t := by
      rw [runBody_outcome render steps tr, h]
    unfold execute
    rcases hrb : runBody render steps tr with ⟨tr1, out⟩
    rw [hrb] at h2
    have h3 : out = BodyOutcome.raised true m t := h2
    subst h3
    rfl
  · intro m t h
    have h2 : (runBody render steps tr).2 = BodyOutcome.raised false m t := by
      rw [runBody_outcome render steps tr, h]
    unfold execute
    rcases hrb : runBody render steps tr with ⟨tr1, out⟩
    rw [hrb] at h2
    have h3 : out = BodyOutcome.raised false m t := h2
    subst h3
    rfl
  · intro h
    have h2 : (runBody render steps tr).2 = BodyOutcome.normal := by
      rw [runBody_outcome render steps tr, h]
    unfold execute
    rcases hrb : runBody render steps tr with ⟨tr1, out⟩
    rw [hrb] at h2
    have h3 : out = BodyOutcome.normal := h2
    subst h3
    rfl

theorem execute_exception_capture_witness :
    (outcomeOf [BodyStep.gcheck none (1 : Int) 1, BodyStep.raise true "boom" "GException",
        BodyStep.gcheck none (1 : Int) 2] = BodyOutcome.raised true "boom" "GException")
    ∧ execute ostreamInt
        [BodyStep.gcheck none (1 : Int) 1, BodyStep.raise true "boom" "GException",
          BodyStep.gcheck none (1 : Int) 2] (initResult "Throws") =
        Except.ok
          { (runBody ostreamInt
              [BodyStep.gcheck none (1 : Int) 1, BodyStep.raise true "boom" "GException",
                BodyStep.gcheck none (1 : Int) 2] (initResult "Throws")).1 with
            exceptions := (runBody ostreamInt
              [BodyStep.gcheck none (1 : Int) 1, BodyStep.raise true "boom" "GException",
                BodyStep.gcheck none (1 : Int) 2] (initResult "Throws")).1.exceptions ++
              [ExceptionInfo.mk "boom" "GException"] }
    ∧ (outcomeOf ([BodyStep.raise false "bad" "std::bad_alloc"] : List (BodyStep Int)) =
        BodyOutcome.raised false "bad" "std::bad_alloc")
    ∧ execute ostreamInt ([BodyStep.raise false "bad" "std::bad_alloc"] : List (BodyStep Int))
        (initResult "Fatal") =
        Except.error (ExceptionInfo.mk "bad" "std::bad_alloc",
          (runBody ostreamInt ([BodyStep.raise false "bad" "std::bad_alloc"] : List (BodyStep Int))
            (initResult "Fatal")).1) :=
  ⟨rfl,
    (execute_exception_capture ostreamInt
      [BodyStep.gcheck none (1 : Int) 1, BodyStep.raise true "boom" "GException",
        BodyStep.gcheck none (1 : Int) 2] (initResult "Throws")).1 "boom" "GException" rfl,
    rfl,
    (execute_exception_capture ostreamInt
      ([BodyStep.raise false "bad" "std::bad_alloc"] : List (BodyStep Int))
      (initResult "Fatal")).2.1 "bad" "std::bad_alloc" rfl⟩

/-- Claim C7 counterexample: a case whose first check passes and whose second
check fails stores the single sequence number 2, not a run starting at 1 —
the stored numbers do not start at 1 when failing checks are interspersed
with passing ones. -/
theorem failedCheck_seq_start_cex :
    ((runBody ostreamInt [BodyStep.gcheck none (1 : Int) 1, BodyStep.gcheck none (2 : Int) 3]
        (initResult "Add")).1.failedChecks.map FailedCheck.checkNumber) = [2]
    ∧ ((runBody ostreamInt [BodyStep.gcheck none (1 : Int) 1, BodyStep.gcheck none (2 : Int) 3]
        (initResult "Add")).1.failedChecks.map FailedCheck.checkNumber).head? ≠ some 1 := by
  decide

/-- Claim C7 (amended): within one case the sequence numbers stored in
failedChecks are strictly increasing, each between 1 and the final value of
the executed-check counter — but they need not start at 1 nor be gap-free
when failing assertions are interspersed with passing ones. -/
theorem failedCheck_seq_strictly_increasing {α : Type} [DecidableEq α] (render : α → String)
    (caseName : String) (steps : List (BodyStep α)) :
    List.Chain' (· < ·)
      ((runBody render steps (initResult caseName)).1.failedChecks.map FailedCheck.checkNumber)
    ∧ ∀ fc ∈ (runBody render steps (initResult caseName)).1.failedChecks,
        1 ≤ fc.checkNumber ∧
          fc.checkNumber ≤ (runBody render steps (initResult caseName)).1.numberExecutedChecks := by
  have h := runBody_failedChecks_invariant render steps (initResult caseName)
    (by simp [initResult]) (by simp [initResult]) (by simp [initResult]) (by simp [initResult])
  exact ⟨h.2.2.1, fun fc hfc => ⟨h.2.1 fc hfc, h.1 fc hfc⟩⟩

/-- Claim C1 counterexample: a case whose body passes one check and then
raises a recognized exception is classified EXCEPTION by the reporting
precedence, yet the summary-count filters also count it among the passed
tests — so the four statuses do not partition the cases for the summary
counts, refuting the claim that no case is counted under more than one
status. -/
theorem summaryCounts_overlap_cex :
    printTestResultTableRowStatus (caseResult ostreamInt
      (TestCase.mk "Throws" [BodyStep.gcheck none (1 : Int) 1,
        BodyStep.raise true "boom" "GException"])) = "EXCEPTION"
    ∧ passedTestFilter (caseResult ostreamInt
        (TestCase.mk "Throws" [BodyStep.gcheck none (1 : Int) 1,
          BodyStep.raise true "boom" "GException"])) = true
    ∧ exceptionFilter (caseResult ostreamInt
        (TestCase.mk "Throws" [BodyStep.gcheck none (1 : Int) 1,
          BodyStep.raise true "boom" "GException"])) = true
    ∧ (getPassedTests [caseResult ostreamInt
        (TestCase.mk "Throws" [BodyStep.gcheck none (1 : Int) 1,
          BodyStep.raise true "boom" "GException"])]).length = 1
    ∧ (getTestsWithExceptions [caseResult ostreamInt
        (TestCase.mk "Throws" [BodyStep.gcheck none (1 : Int) 1,
          BodyStep.raise true "boom" "GException"])]).length = 1 := by
  decide

/-- Claim C1 (amended): the status classification used for reporting (the
per-row status of printTestResultTableRow) follows the stated precedence and
partitions the cases; the summary counts, computed by independent filters,
do not follow this precedence (see the counterexample). -/
theorem rowStatus_precedence_partition (r : TestResult) :
    (printTestResultTableRowStatus r = "EXCEPTION" ↔ r.exceptions ≠ [])
    ∧ (printTestResultTableRowStatus r = "FAILED" ↔
        r.exceptions = [] ∧ r.failedChecks ≠ [])
    ∧ (printTestResultTableRowStatus r = "PASSED" ↔
        r.exceptions = [] ∧ r.failedChecks = [] ∧ 0 < r.numberExecutedChecks)
    ∧ (printTestResultTableRowStatus r = "NOT PERFORMED" ↔
        r.exceptions = [] ∧ r.failedChecks = [] ∧ ¬ 0 < r.numberExecutedChecks) := by
  by_cases hx : r.exceptions = [] <;> by_cases hf : r.failedChecks = [] <;>
    by_cases hn : 0 < r.numberExecutedChecks <;>
      simp [printTestResultTableRowStatus, hx, hf, hn, List.isEmpty_iff]

/-- Claim C6: executeTests visits every registered case exactly once, in
registration order, incrementing the executed-test counter and emitting that
case's row before moving to the next; when no case raises an exception
outside the recognized family, every case runs — failed checks and captured
domain exceptions in one case never prevent later cases, and each case's row
depends only on that case. -/
theorem executeTests_all_cases_in_order {α : Type} [DecidableEq α] (render : α → String)
    (cases : List (TestCase α)) (h : ∀ c ∈ cases, isFatal (outcomeOf c.body) = false) :
    executeTests render cases = Except.ok (rowsFrom render 0 cases)
    ∧ (rowsFrom render 0 cases).map Prod.fst =
        (List.range cases.length).map (fun i : Nat => (i : Int) + 1)
    ∧ (rowsFrom render 0 cases).map Prod.snd = cases.map (caseResult render) := by
  refine ⟨executeTestsLoop_ok render cases 0 h, ?_, rowsFrom_map_snd render cases 0⟩
  rw [rowsFrom_map_fst render cases 0]
  have hfun : (fun i : Nat => (0 : Int) + (i : Int) + 1) = (fun i : Nat => (i : Int) + 1) := by
    funext i
    ring
  rw [hfun]

theorem executeTests_all_cases_in_order_witness :
    (∀ c ∈ [TestCase.mk "Add" [BodyStep.gcheck none (5 : Int) 5, BodyStep.gcheck none (5 : Int) 6],
        TestCase.mk "Throws" [BodyStep.gcheck none (1 : Int) 1,
          BodyStep.raise true "boom" "GException"],
        TestCase.mk "Empty" ([] : List (BodyStep Int))],
      isFatal (outcomeOf c.body) = false)
    ∧ executeTests ostreamInt
        [TestCase.mk "Add" [BodyStep.gcheck none (5 : Int) 5, BodyStep.gcheck none (5 : Int) 6],
          TestCase.mk "Throws" [BodyStep.gcheck none (1 : Int) 1,
            BodyStep.raise true "boom" "GException"],
          TestCase.mk "Empty" ([] : List (BodyStep Int))] =
        Except.ok (rowsFrom ostreamInt 0
          [TestCase.mk "Add" [BodyStep.gcheck none (5 : Int) 5, BodyStep.gcheck none (5 : Int) 6],
            TestCase.mk "Throws" [BodyStep.gcheck none (1 : Int) 1,
              BodyStep.raise true "boom" "GException"],
            TestCase.mk "Empty" ([] : List (BodyStep Int))]) :=
  ⟨by decide,
    (executeTests_all_cases_in_order ostreamInt
      [TestCase.mk "Add" [BodyStep.gcheck none (5 : Int) 5, BodyStep.gcheck none (5 : Int) 6],
        TestCase.mk "Throws" [BodyStep.gcheck none (1 : Int) 1,
          BodyStep.raise true "boom" "GException"],
        TestCase.mk "Empty" ([] : List (BodyStep Int))] (by decide)).1⟩

/-- Claim C5: the overall run result is SUCCESS exactly when
numberOfFailedChecks — the sum over the registered cases of the sizes of
their failedChecks lists — is zero; an empty registry gives total 0 and
SUCCESS, and so does any run whose cases all executed zero checks and
captured no exception. -/
theorem overall_success_iff_zero_failed {α : Type} [DecidableEq α] (render : α → String)
    (ts : List TestResult) (cases : List (TestCase α)) (rows : List (Int × TestResult)) :
    (summaryResultString ts = "SUCCESS!" ↔ numberOfFailedChecks ts = 0)
    ∧ (numberOfFailedChecks ([] : List TestResult) = 0
        ∧ summaryResultString ([] : List TestResult) = "SUCCESS!")
    ∧ (executeTests render cases = Except.ok rows →
        (∀ p ∈ rows, p.2.numberExecutedChecks = 0 ∧ p.2.exceptions = []) →
        numberOfFailedChecks (rows.map Prod.snd) = 0
        ∧ summaryResultString (rows.map Prod.snd) = "SUCCESS!") := by
  refine ⟨?_, ⟨rfl, rfl⟩, ?_⟩
  · by_cases hN : numberOfFailedChecks ts = 0
    · simp [summaryResultString, hN]
    · simp [summaryResultString, hN]
  · intro hok hall
    have hz : ∀ t ∈ rows.map Prod.snd, t.failedChecks = [] := by
      intro t ht
      rcases List.mem_map.mp ht with ⟨p, hp, rfl⟩
      rcases executeTestsLoop_ok_mem render cases 0 rows hok p hp with ⟨c, hc, he⟩
      exact execute_ok_zero_checks render c.body c.name p.2 he (hall p hp).1
    have h0 := numberOfFailedChecks_of_all_empty _ hz
    exact ⟨h0, by simp [summaryResultString, h0]⟩

theorem overall_success_iff_zero_failed_witness :
    executeTests ostreamInt [TestCase.mk "NotPerformed" ([] : List (BodyStep Int))] =
      Except.ok [(1, initResult "NotPerformed")]
    ∧ (∀ p ∈ [((1 : Int), initResult "NotPerformed")],
        p.2.numberExecutedChecks = 0 ∧ p.2.exceptions = [])
    ∧ (numberOfFailedChecks ([((1 : Int), initResult "NotPerformed")].map Prod.snd) = 0
        ∧ summaryResultString ([((1 : Int), initResult "NotPerformed")].map Prod.snd) =
            "SUCCESS!") :=
  ⟨rfl, by decide,
    (overall_success_iff_zero_failed ostreamInt []
      [TestCase.mk "NotPerformed" ([] : List (BodyStep Int))]
      [((1 : Int), initResult "NotPerformed")]).2.2 rfl (by decide)⟩

/-- Claim C8 counterexample: with one registered case whose single check
fails, totalFailedChecks is positive, yet the modelled run entry point
returns no failure signal — executeTests is void in the source, and the
repository's documented driver (run_tests.cpp in the README) returns 0
unconditionally, a success exit code despite the failure. -/
theorem run_signal_always_zero_cex :
    executeTests ostreamInt [TestCase.mk "Fail" [BodyStep.gcheck none (1 : Int) 2]] =
      Except.ok (rowsFrom ostreamInt 0 [TestCase.mk "Fail" [BodyStep.gcheck none (1 : Int) 2]])
    ∧ 0 < numberOfFailedChecks ((rowsFrom ostreamInt 0
        [TestCase.mk "Fail" [BodyStep.gcheck none (1 : Int) 2]]).map Prod.snd)
    ∧ (runTestsMain ostreamInt [TestCase.mk "Fail" [BodyStep.gcheck none (1 : Int) 2]]).2 = 0 :=
  ⟨rfl, by decide, rfl⟩

/-- Claim C8 (amended): executeTests returns no value, so no process
success/failure signal comes back from the run entry point; the run's only
success/failure signal is the printed summary line, which reads "FAILED"
exactly when totalFailedChecks > 0, while the README driver returns 0
unconditionally. -/
theorem summary_is_only_failure_signal {α : Type} [DecidableEq α] (render : α → String)
    (ts : List TestResult) (cases : List (TestCase α)) :
    (summaryResultString ts = "FAILED" ↔ 0 < numberOfFailedChecks ts)
    ∧ (runTestsMain render cases).2 = 0 := by
  constructor
  · have hnn := numberOfFailedChecks_nonneg ts
    by_cases hN : numberOfFailedChecks ts = 0
    · simp [summaryResultString, hN]
    · simp [summaryResultString, hN]
      omega
  · rfl

end GTest
